import Mathlib

/-!
Shallow embedding of the collaborative 3D-model viewer
(`src/unnamed/part_000`, a React component file built on Babylon.js and the
Live Share SDK, and `ModelViewerScene.tsx`).

Pure rendering decisions become Lean functions; callbacks with side effects
become functions returning an explicit list of `Effect`s; nullable references
(`Nullable<T>`, optional props) become `Option`.
-/

namespace LiveShare3D

/-- Camera/world coordinates.  The repository never computes with them, it only
copies `x`, `y`, `z` between the Babylon camera and the shared state, so the
scalar type is abstract-as-`Int` here. -/
structure Vec3 where
  x : Int
  y : Int
  z : Int
deriving DecidableEq, Repr

/-- A Babylon material as consumed by this repository: it has a `name` and
either is or is not an instance of `PBRMaterial` (the only subclass test the
code performs).  `albedoColor` assignment is modelled as an `Effect` below. -/
structure Material where
  name : String
  isPBR : Bool
deriving DecidableEq, Repr

/-- A Babylon mesh as consumed by `handlePointerDown`: only its (nullable)
material is read. -/
structure Mesh where
  material : Option Material
deriving DecidableEq, Repr

/-- Babylon `PickingInfo` as consumed by `handlePointerDown`: `hit` and the
nullable `pickedMesh`. -/
structure PickingInfo where
  hit : Bool
  pickedMesh : Option Mesh
deriving DecidableEq, Repr

/-- A Babylon `ArcRotateCamera` as consumed by this repository: only its
current `position` is read (in `sendCameraPos`). -/
structure Camera where
  position : Vec3
deriving DecidableEq, Repr

/-- A Babylon scene as consumed by this repository: its material table (for
`getMaterialByName`) and its nullable `activeCamera` (read by the
`viewerready` handler in `ModelViewerScene.tsx`). -/
structure Scene where
  materials : List Material
  activeCamera : Option Camera
deriving DecidableEq, Repr

/-- `scene.getMaterialByName(name)`: first material with that name, or null. -/
def Scene.getMaterialByName (s : Scene) (name : String) : Option Material :=
  s.materials.find? (fun m => m.name = name)

/-- `Color3.FromHexString` is Babylon library code; the repository treats the
result opaquely, so the embedding keeps the hex string itself as the colour
value. -/
def Color3FromHexString (hex : String) : String := hex

/-- The side effects the component callbacks perform, in order. -/
inductive Effect
  /-- `setMaterialColor(key, value)` — write to the shared COLORS map. -/
  | setEntry (key value : String)
  /-- `material.albedoColor = Color3.FromHexString(color)` on the named material. -/
  | setAlbedo (materialName color : String)
  /-- `setSelectedMaterialName(v)` — React state update. -/
  | setSelected (v : Option String)
  /-- `updateUserCameraState({cameraPosition: {x, y, z}})`. -/
  | updateUserCameraState (x y z : Int)
  /-- `beginSuspension()`. -/
  | beginSuspension
  /-- `isApplyingRemoteCameraUpdate.current = b`. -/
  | setApplyingFlag (b : Bool)
  /-- `camera.setPosition(p)`. -/
  | setPosition (p : Vec3)
  /-- `camera.update()`. -/
  | cameraUpdate
  /-- `camera.updateCache()`. -/
  | cameraUpdateCache
deriving DecidableEq, Repr

/-- `onChangeColor(value)` (part_000 lines 157-174): bail out when no material
is selected or the scene ref is null; otherwise write the shared-map entry,
then recolor the named material only if it exists and is a `PBRMaterial`. -/
def onChangeColor (selectedMaterialName : Option String) (scene : Option Scene)
    (value : String) : List Effect :=
  match selectedMaterialName with
  | none => []
  | some name =>
    match scene with
    | none => []
    | some s =>
      Effect.setEntry name value ::
        (match s.getMaterialByName name with
         | some m =>
           if m.isPBR then [Effect.setAlbedo name (Color3FromHexString value)] else []
         | none => [])

/-- `handlePointerDown(evt)` (part_000 lines 179-199).  `pickResult` stands for
the value returned by `sceneRef.current.pick(evt.clientX, evt.clientY)`; it is
only computed when the scene ref is non-null, so the function takes it as an
argument and ignores it in the null-scene branch. -/
def handlePointerDown (scene : Option Scene) (pickResult : Option PickingInfo)
    (selectedMaterialName : Option String) : List Effect :=
  match scene with
  | none => []
  | some _ =>
    match pickResult with
    | some pr =>
      if pr.hit then
        match pr.pickedMesh with
        | some mesh =>
          match mesh.material with
          | none => []
          | some mat => [Effect.setSelected (some mat.name)]
        | none =>
          match selectedMaterialName with
          | none => []
          | some _ => [Effect.setSelected none]
      else
        match selectedMaterialName with
        | none => []
        | some _ => [Effect.setSelected none]
    | none =>
      match selectedMaterialName with
      | none => []
      | some _ => [Effect.setSelected none]

/-- The selected-material state after `handlePointerDown` runs: either the
value of the single `setSelected` effect, or the old value when no state
update was issued. -/
def selectedAfterPointerDown (scene : Option Scene) (pickResult : Option PickingInfo)
    (selectedMaterialName : Option String) : Option String :=
  match (handlePointerDown scene pickResult selectedMaterialName).reverse.find?
      (fun e => match e with | Effect.setSelected _ => true | _ => false) with
  | some (Effect.setSelected v) => v
  | _ => selectedMaterialName

/-- `applyRemoteColors()` (part_000 lines 218-227): for each entry of the
shared COLORS map, skip it when the scene ref is null, the material is absent,
or it is not a `PBRMaterial`; otherwise set its albedo colour.
(`return` inside a JS `forEach` callback skips only that entry.) -/
def applyRemoteColors (colorsMap : List (String × String)) (scene : Option Scene) :
    List Effect :=
  (colorsMap.map (fun kv =>
    match scene with
    | none => []
    | some s =>
      match s.getMaterialByName kv.1 with
      | some m =>
        if m.isPBR then [Effect.setAlbedo kv.1 (Color3FromHexString kv.2)] else []
      | none => [])).flatten

/-- `sendCameraPos()` (part_000 lines 239-249): bail out when the camera is
null, otherwise push the camera's current `{x, y, z}` position. -/
def sendCameraPos (camera : Option Camera) : List Effect :=
  match camera with
  | none => []
  | some c =>
    [Effect.updateUserCameraState c.position.x c.position.y c.position.z]

/-- `onCameraViewMatrixChanged()` (part_000 lines 286-294): when the
`isApplyingRemoteCameraUpdate` flag is not set, send the camera position and
begin a suspension; when it is set, do nothing. -/
def onCameraViewMatrixChanged (isApplyingRemoteCameraUpdate : Bool)
    (camera : Option Camera) : List Effect :=
  if !isApplyingRemoteCameraUpdate then
    sendCameraPos camera ++ [Effect.beginSuspension]
  else []

/-- The `FollowModeType` enum of the Live Share SDK, as consumed by this
repository (`local` is a Lean keyword, so that value is spelled `localType`). -/
inductive FollowModeType
  | localType
  | activeFollowers
  | activePresenter
  | followPresenter
  | suspendFollowPresenter
  | followUser
  | suspendFollowUser
deriving DecidableEq, Repr, Fintype

/-- The per-user custom data this repository synchronizes through
`useLiveFollowMode<ICustomFollowData>`: an optional camera position
`{x, y, z}` (part_000 lines 86-92). -/
structure ICustomFollowData where
  cameraPosition : Option Vec3
deriving DecidableEq, Repr

/-- The follow-mode state object (`remoteCameraState`) as consumed by this
repository: the relevant user's custom `value`, whether that value is the
local user's own, and the follow-mode `type`. -/
structure RemoteCameraState where
  value : ICustomFollowData
  isLocalValue : Bool
  type : FollowModeType
deriving DecidableEq, Repr

/-- The body of the `onBeforeRenderObservable.addOnce` callback scheduled by
`snapCameraIfFollowingUser` (part_000 lines 265-272), as the ordered trace of
its primitive steps: raise the `isApplyingRemoteCameraUpdate` flag, snap and
update the camera, lower the flag. -/
def snapCallbackTrace (remoteCameraPos : Vec3) : List Effect :=
  [Effect.setApplyingFlag true,
   Effect.setPosition remoteCameraPos,
   Effect.cameraUpdate,
   Effect.cameraUpdateCache,
   Effect.setApplyingFlag false]

/-- `snapCameraIfFollowingUser()` (part_000 lines 254-274): bail out when the
remote camera position is absent, when the state is the local user's own
value, or when the camera is null; otherwise, if the scene ref is non-null,
schedule the snap callback before the next render. -/
def snapCameraIfFollowingUser (remoteCameraState : Option RemoteCameraState)
    (camera : Option Camera) (scene : Option Scene) : List Effect :=
  match remoteCameraState with
  | none => []
  | some st =>
    match st.value.cameraPosition with
    | none => []
    | some pos =>
      if st.isLocalValue then []
      else
        match camera with
        | none => []
        | some _ =>
          match scene with
          | none => []
          | some _ => snapCallbackTrace pos

/-- Whether an effect is one of the camera mutations performed while applying
a remote camera update (`setPosition` / `update` / `updateCache`). -/
def Effect.isCameraOp : Effect → Bool
  | Effect.setPosition _ => true
  | Effect.cameraUpdate => true
  | Effect.cameraUpdateCache => true
  | _ => false

/-- The value of the `isApplyingRemoteCameraUpdate` flag observed by step `i`
of a trace, starting from `init`: the last value assigned by the
`setApplyingFlag` steps before `i`. -/
def flagAt (init : Bool) (trace : List Effect) (i : Nat) : Bool :=
  (trace.take i).foldl
    (fun f e => match e with | Effect.setApplyingFlag b => b | _ => f) init

/-- What `LoadingErrorWrapper` renders. -/
inductive LoadingRender
  | errorText (message : String)
  | spinner
  | children
deriving DecidableEq, Repr

/-- The `joinError` object from `useLiveShareContext`: only its `message` is
read. -/
structure JoinError where
  message : String
deriving DecidableEq, Repr

/-- `LoadingErrorWrapper` (part_000 lines 69-84): render the join error's
message as text when there is one, a spinner while not yet joined, and the
children otherwise. -/
def LoadingErrorWrapper (joined : Bool) (joinError : Option JoinError) :
    LoadingRender :=
  match joinError with
  | some e => LoadingRender.errorText e.message
  | none => if !joined then LoadingRender.spinner else LoadingRender.children

/-- The rendering condition of the `HexColorPicker` element (part_000 line
430): `!!sharedColorsMap && !!selectedMaterialName`.  The shared map is
modelled by presence only (`Option Unit`): the condition reads nothing else
from it. -/
def hexColorPickerRendered (sharedColorsMap : Option Unit)
    (selectedMaterialName : Option String) : Bool :=
  sharedColorsMap.isSome && selectedMaterialName.isSome

/-- The action buttons that can appear on the right of the top header bar
(part_000 lines 347-401), identified by their labels. -/
inductive HeaderButton
  | spotlightMe
  | stopSpotlight
  | stopFollowing
  | takeControl
deriving DecidableEq, Repr

/-- The right-side buttons of the `TopHeaderBar` for a given follow-mode type,
in render order (part_000 lines 349-393): each of the four conditional
fragments contributes its button when its type condition holds. -/
def headerBarButtons (t : FollowModeType) : List HeaderButton :=
  (if t = FollowModeType.localType ∨ t = FollowModeType.activeFollowers then
    [HeaderButton.spotlightMe] else []) ++
  (if t = FollowModeType.activePresenter then
    [HeaderButton.stopSpotlight] else []) ++
  (if t = FollowModeType.suspendFollowUser ∨ t = FollowModeType.followUser then
    [HeaderButton.stopFollowing] else []) ++
  (if t = FollowModeType.followPresenter ∨ t = FollowModeType.suspendFollowPresenter then
    [HeaderButton.takeControl] else [])

/-- The buttons rendered in the top header bar area: the `TopHeaderBar` itself
is rendered only when `remoteCameraState` is non-null (part_000 line 347). -/
def topHeaderBarButtons (remoteCameraState : Option RemoteCameraState) :
    List HeaderButton :=
  match remoteCameraState with
  | none => []
  | some st => headerBarButtons st.type

/-! ### `ModelViewerScene.tsx` -/

/-- The environment URL hard-coded on the `babylon-viewer` element
(`ModelViewerScene.tsx` line 78). -/
def modelViewerEnvUrl : String :=
  "https://assets.babylonjs.com/environments/ulmerMuenster.env"

/-- The model URL `LiveObjectViewer` passes as the `modelFileName` prop
(part_000 line 404). -/
def liveObjectViewerModelUrl : String :=
  "https://raw.githubusercontent.com/BabylonJS/Assets/master/splats/gs_Skull.splat"

/-- The attributes `ModelViewerScene` sets on the `babylon-viewer` element. -/
structure ViewerAttributes where
  src : Option String
  env : Option String
deriving DecidableEq, Repr

/-- `ModelViewerScene` renders the `babylon-viewer` element with
`src={modelFileName}` and the hard-coded environment URL
(`ModelViewerScene.tsx` lines 74-79). -/
def viewerAttributes (modelFileName : String) : ViewerAttributes :=
  { src := some modelFileName, env := some modelViewerEnvUrl }

/-- The `viewerready` `CustomEvent` as consumed by `ModelViewerScene`: only
`event.detail.scene` is read. -/
structure ViewerReadyEvent where
  scene : Scene
deriving DecidableEq, Repr

/-- The arguments the `viewerready` handler passes to `onReadyObservable`
(`ModelViewerScene.tsx` lines 48-53): the scene from `event.detail.scene` and
`scene.activeCamera` (the TS `as ArcRotateCamera` cast passes the nullable
value through unchanged). -/
def viewerReadyHandlerArgs (event : ViewerReadyEvent) : Scene × Option Camera :=
  (event.scene, event.scene.activeCamera)

/-- Resource acquisition/release actions performed by the React effects that
register listeners or observers on framework-owned objects. -/
inductive ResourceAction
  /-- `addEventListener(eventName, handler, opts)`; `withAbortSignal` records
  whether `opts` carried `signal: abortController.signal`. -/
  | addListener (eventName : String) (withAbortSignal : Bool)
  /-- `abortController.abort()`. -/
  | abortControllerAbort
  /-- `camera.onViewMatrixChangedObservable.add(...)`. -/
  | addCameraObserver
  /-- `observer.remove()`. -/
  | removeCameraObserver
  /-- `sceneRef.current.onPointerDown = h` (`some` for a handler, `none` for
  `undefined`). -/
  | setScenePointerHandler (handler : Option Unit)
deriving DecidableEq, Repr

/-- Setup actions of the `ModelViewerScene` effect (`ModelViewerScene.tsx`
lines 42-64, taking the `viewerElement` non-null branch): the `viewerready`
listener is registered with `{once: true, signal: abortController.signal}`;
the `modelchange` listener is registered with no options argument. -/
def modelViewerSetup : List ResourceAction :=
  [ResourceAction.addListener "viewerready" true,
   ResourceAction.addListener "modelchange" false]

/-- Cleanup of the `ModelViewerScene` effect (`ModelViewerScene.tsx` lines
66-68): it only aborts the controller. -/
def modelViewerCleanup : List ResourceAction :=
  [ResourceAction.abortControllerAbort]

/-- Setup of the camera view-matrix observer effect (part_000 lines 299-304). -/
def cameraObserverSetup : List ResourceAction :=
  [ResourceAction.addCameraObserver]

/-- Cleanup of the camera view-matrix observer effect (part_000 lines
305-308). -/
def cameraObserverCleanup : List ResourceAction :=
  [ResourceAction.removeCameraObserver]

/-- Setup of the `onPointerDown` effect (part_000 lines 204-207, scene ref
non-null branch). -/
def pointerHandlerSetup : List ResourceAction :=
  [ResourceAction.setScenePointerHandler (some ())]

/-- Cleanup of the `onPointerDown` effect (part_000 lines 208-212, scene ref
non-null branch). -/
def pointerHandlerCleanup : List ResourceAction :=
  [ResourceAction.setScenePointerHandler none]

/-- DOM `AbortSignal` semantics: a listener registered in `setup` is removed
by `cleanup` iff it was registered with the abort signal and the cleanup
aborts the controller. -/
def listenerRemovedOnCleanup (setup cleanup : List ResourceAction)
    (eventName : String) : Bool :=
  setup.any (fun a =>
    match a with
    | ResourceAction.addListener e ws =>
      e = eventName && ws && cleanup.contains ResourceAction.abortControllerAbort
    | _ => false)

/-- Whether an acquisition action is matched by a release in `cleanup`:
a listener needs its abort signal to have been passed and the cleanup to abort
the controller; an observer needs `observer.remove()`; a pointer handler needs
the reset to `undefined`.  Non-acquisition actions need nothing. -/
def releasedOnCleanup (cleanup : List ResourceAction) : ResourceAction → Bool
  | ResourceAction.addListener _ ws =>
    ws && cleanup.contains ResourceAction.abortControllerAbort
  | ResourceAction.addCameraObserver =>
    cleanup.contains ResourceAction.removeCameraObserver
  | ResourceAction.setScenePointerHandler (some _) =>
    cleanup.contains (ResourceAction.setScenePointerHandler none)
  | _ => true

/-- Every acquisition in `setup` is paired with a release in `cleanup`. -/
def allReleased (setup cleanup : List ResourceAction) : Bool :=
  setup.all (releasedOnCleanup cleanup)

/-! ### Synchronized objects (data model) -/

/-- The live (synchronized) objects instantiated by the `LiveObjectViewer`
component tree. -/
inductive SyncedObject
  /-- `useSharedMap("COLORS")`: material name → hex color string. -/
  | colorsSharedMap
  /-- `useLiveFollowMode<ICustomFollowData>("FOLLOW_MODE")`: per-user state
  whose custom data is an optional camera position, plus the SDK's
  follow/suspend mode. -/
  | followModeState
  /-- The `useLiveCanvas` session inside `LiveCanvasOverlay`: synchronized
  pen/highlighter strokes and cursors. -/
  | liveCanvasInk
deriving DecidableEq, Repr

/-- The synchronized objects of the `LiveObjectViewer` tree: the COLORS shared
map and the FOLLOW_MODE state (part_000 lines 118-152), plus the live-canvas
ink session of the `LiveCanvasOverlay` it renders (part_000 lines 446-452).
Modelled from the spec: the `LiveCanvasOverlay` component source is not under
`src/`; its synchronized role is taken from the host component's own
documentation (part_000 line 103: `useLiveCanvas` is used to enable
synchronized pen/highlighter/cursors atop the model when in follow mode). -/
def liveObjectViewerSyncedObjects : List SyncedObject :=
  [SyncedObject.colorsSharedMap, SyncedObject.followModeState,
   SyncedObject.liveCanvasInk]

/-- The synchronized data as the spec's words describe it, for comparison:
exactly the material-colors mapping and the per-user follow state record. -/
def specSyncedObjects : List SyncedObject :=
  [SyncedObject.colorsSharedMap, SyncedObject.followModeState]

/-! ### Component state for reachability arguments

`sceneRef`, the `camera` state and the `selectedMaterialName` state of
`LiveObjectViewer`, and the events that mutate them: the `onReadyObservable`
callback (part_000 lines 405-414) and `handlePointerDown`.  No other code in
the file assigns these references (in particular `sceneRef.current` and
`camera` never go back to null once set). -/

structure ViewerState where
  scene : Option Scene
  selected : Option String
  camera : Option Camera
deriving DecidableEq, Repr

/-- Initial state: `useRef(null)`, `useState(null)`, `useState(null)`
(part_000 lines 107-128). -/
def ViewerState.init : ViewerState :=
  { scene := none, selected := none, camera := none }

/-- The selected-material state `handlePointerDown` leaves behind. -/
def ViewerState.afterPointerDown (st : ViewerState) (pr : Option PickingInfo) :
    ViewerState :=
  { st with selected := selectedAfterPointerDown st.scene pr st.selected }

/-- One state-mutating event of `LiveObjectViewer`. -/
inductive ViewerEvent
  /-- The viewer-ready callback: `sceneRef.current = scene; setCamera(camera)`. -/
  | ready (s : Scene) (c : Option Camera)
  /-- A pointer-down event, with `pr` the scene's pick result. -/
  | pointerDown (pr : Option PickingInfo)
deriving Repr

/-- The state transition for one event. -/
def ViewerState.applyEvent (st : ViewerState) : ViewerEvent → ViewerState
  | ViewerEvent.ready s c => { st with scene := some s, camera := c }
  | ViewerEvent.pointerDown pr => st.afterPointerDown pr

/-- Run a sequence of events from a state. -/
def ViewerState.run (st : ViewerState) : List ViewerEvent → ViewerState
  | [] => st
  | e :: es => (st.applyEvent e).run es

/-- States reachable from the initial component state. -/
def ViewerReachable (st : ViewerState) : Prop :=
  ∃ es : List ViewerEvent, ViewerState.run ViewerState.init es = st

/-! ## Helper lemmas -/

/-- With a null scene ref, `handlePointerDown` leaves the selection as it
was. -/
theorem selectedAfterPointerDown_none_scene (pr : Option PickingInfo)
    (sel : Option String) : selectedAfterPointerDown none pr sel = sel := rfl

/-- One event preserves the invariant that a selection implies a scene. -/
theorem applyEvent_preserves_selected_implies_scene (st : ViewerState)
    (e : ViewerEvent) (h : st.selected.isSome → st.scene.isSome) :
    (st.applyEvent e).selected.isSome → (st.applyEvent e).scene.isSome := by
  cases e with
  | ready s c => intro _; rfl
  | pointerDown pr =>
    intro hsel
    cases hsc : st.scene with
    | some s =>
      simp [ViewerState.applyEvent, ViewerState.afterPointerDown, hsc]
    | none =>
      simp only [ViewerState.applyEvent, ViewerState.afterPointerDown, hsc,
        selectedAfterPointerDown_none_scene] at hsel
      have := h hsel
      rw [hsc] at this
      simp at this

/-- Running any event sequence preserves the invariant. -/
theorem run_preserves_selected_implies_scene (es : List ViewerEvent) :
    ∀ st : ViewerState, (st.selected.isSome → st.scene.isSome) →
    ((st.run es).selected.isSome → (st.run es).scene.isSome) := by
  induction es with
  | nil => intro st h; exact h
  | cons e es ih =>
    intro st h
    exact ih (st.applyEvent e)
      (applyEvent_preserves_selected_implies_scene st e h)

/-- Invariant of the component state: a material can only be selected once the
scene ref is set (selection happens in `handlePointerDown`, which returns
immediately when the scene ref is null, and the scene ref is never reset to
null). -/
theorem viewer_selected_implies_scene {st : ViewerState}
    (h : ViewerReachable st) : st.selected.isSome → st.scene.isSome := by
  obtain ⟨es, rfl⟩ := h
  exact run_preserves_selected_implies_scene es ViewerState.init (by intro h0; simp [ViewerState.init] at h0)

/-! ## Claims -/

/-- C1: for every pointer-down event on the scene, if the pick result has
`hit = true` and a picked mesh whose material is non-null, `handlePointerDown`
sets the selected material name to that material's name; and the
`HexColorPicker` element is rendered exactly when both the shared colors map
exists and the selected material name is non-null. -/
theorem c1_pointer_selects_material_and_picker_visibility :
    (∀ (s : Scene) (pr : PickingInfo) (mesh : Mesh) (mat : Material)
        (sel : Option String),
      pr.hit = true → pr.pickedMesh = some mesh → mesh.material = some mat →
      handlePointerDown (some s) (some pr) sel =
        [Effect.setSelected (some mat.name)]) ∧
    (∀ (m : Option Unit) (sel : Option String),
      hexColorPickerRendered m sel = true ↔ m.isSome = true ∧ sel.isSome = true) := by
  constructor
  · intro s pr mesh mat sel hhit hmesh hmat
    simp [handlePointerDown, hhit, hmesh, hmat]
  · intro m sel
    simp [hexColorPickerRendered]

/-- C1 witness: clicking with a pick result that hits a mesh carrying material
`"mat1"` issues exactly the state update selecting `"mat1"`. -/
theorem c1_witness :
    handlePointerDown (some { materials := [], activeCamera := none })
      (some { hit := true,
              pickedMesh := some { material := some { name := "mat1", isPBR := true } } })
      none = [Effect.setSelected (some "mat1")] :=
  c1_pointer_selects_material_and_picker_visibility.1
    { materials := [], activeCamera := none }
    { hit := true,
      pickedMesh := some { material := some { name := "mat1", isPBR := true } } }
    { material := some { name := "mat1", isPBR := true } }
    { name := "mat1", isPBR := true } none rfl rfl rfl

/-- C2: `LoadingErrorWrapper` renders the join error's message as text
whenever `joinError` is non-null; with no join error and `joined = false` it
renders a spinner; and it renders its children exactly when `joined` is true
and `joinError` is null. -/
theorem c2_loading_error_wrapper (joined : Bool) (joinError : Option JoinError) :
    (∀ e, joinError = some e →
      LoadingErrorWrapper joined joinError = LoadingRender.errorText e.message) ∧
    (joinError = none → joined = false →
      LoadingErrorWrapper joined joinError = LoadingRender.spinner) ∧
    (LoadingErrorWrapper joined joinError = LoadingRender.children ↔
      joined = true ∧ joinError = none) := by
  cases joinError <;> cases joined <;>
    simp [LoadingErrorWrapper]

/-- C2 witness: joined with no error renders the children. -/
theorem c2_witness : LoadingErrorWrapper true none = LoadingRender.children :=
  ((c2_loading_error_wrapper true none).2.2).mpr ⟨rfl, rfl⟩

/-- C3: the defensive null checks.  `onChangeColor` returns with no effect
when the selected material name or the scene is null, and any recolor effect
it produces is on a material that exists in the scene and is a `PBRMaterial`;
`sendCameraPos` returns with no effect when the camera is null;
`snapCameraIfFollowingUser` returns with no effect when the remote camera
position or the camera is null; `applyRemoteColors` recolors only map entries
whose material exists and is a `PBRMaterial`. -/
theorem c3_defensive_null_checks :
    (∀ (scene : Option Scene) (v : String), onChangeColor none scene v = []) ∧
    (∀ (sel : Option String) (v : String), onChangeColor sel none v = []) ∧
    (∀ (sel : Option String) (scene : Option Scene) (v n c : String),
      Effect.setAlbedo n c ∈ onChangeColor sel scene v →
      ∃ s m, scene = some s ∧ s.getMaterialByName n = some m ∧ m.isPBR = true) ∧
    (sendCameraPos none = []) ∧
    (∀ (st : Option RemoteCameraState) (cam : Option Camera) (sc : Option Scene),
      (∀ r, st = some r → r.value.cameraPosition = none) →
      snapCameraIfFollowingUser st cam sc = []) ∧
    (∀ (st : Option RemoteCameraState) (sc : Option Scene),
      snapCameraIfFollowingUser st none sc = []) ∧
    (∀ (cmap : List (String × String)) (scene : Option Scene) (k c : String),
      Effect.setAlbedo k c ∈ applyRemoteColors cmap scene →
      ∃ s m, scene = some s ∧ s.getMaterialByName k = some m ∧ m.isPBR = true) := by
  refine ⟨fun scene v => rfl, ?_, ?_, rfl, ?_, ?_, ?_⟩
  · intro sel v; cases sel <;> rfl
  · intro sel scene v n c h
    cases sel with
    | none => simp [onChangeColor] at h
    | some name =>
      cases scene with
      | none => simp [onChangeColor] at h
      | some s =>
        simp only [onChangeColor, List.mem_cons] at h
        rcases h with h | h
        · exact absurd h (by simp)
        · cases hm : s.getMaterialByName name with
          | none => rw [hm] at h; simp at h
          | some m =>
            rw [hm] at h
            by_cases hp : m.isPBR = true
            · simp [hp] at h
              exact ⟨s, m, rfl, h.1 ▸ hm, hp⟩
            · simp [hp] at h
  · intro st cam sc hnone
    cases st with
    | none => rfl
    | some r => simp [snapCameraIfFollowingUser, hnone r rfl]
  · intro st sc
    cases st with
    | none => rfl
    | some r =>
      cases hcp : r.value.cameraPosition with
      | none => simp [snapCameraIfFollowingUser, hcp]
      | some pos =>
        cases hl : r.isLocalValue <;>
          simp [snapCameraIfFollowingUser, hcp, hl]
  · intro cmap scene k c h
    cases scene with
    | none => simp [applyRemoteColors] at h
    | some s =>
      simp only [applyRemoteColors, List.mem_flatten, List.mem_map] at h
      obtain ⟨l, ⟨kv, _, rfl⟩, hmem⟩ := h
      cases hm : s.getMaterialByName kv.1 with
      | none => rw [hm] at hmem; simp at hmem
      | some m =>
        rw [hm] at hmem
        by_cases hp : m.isPBR = true
        · simp [hp] at hmem
          exact ⟨s, m, rfl, hmem.1 ▸ hm, hp⟩
        · simp [hp] at hmem

/-- C3 witness: with the remote state present but carrying no camera position,
`snapCameraIfFollowingUser` performs no effect. -/
theorem c3_witness :
    snapCameraIfFollowingUser
      (some { value := { cameraPosition := none }, isLocalValue := false,
              type := FollowModeType.followPresenter })
      (some { position := { x := 0, y := 0, z := 0 } })
      (some { materials := [], activeCamera := none }) = [] :=
  c3_defensive_null_checks.2.2.2.2.1
    (some { value := { cameraPosition := none }, isLocalValue := false,
            type := FollowModeType.followPresenter })
    (some { position := { x := 0, y := 0, z := 0 } })
    (some { materials := [], activeCamera := none })
    (fun r hr => by cases hr; rfl)

/-- C4 counterexample: the `modelchange` listener is registered without the
abort signal (`ModelViewerScene.tsx` lines 59-63 pass no options argument), so
the cleanup's `abortController.abort()` does not remove it — the claim that it
is removed via the same mechanism as `viewerready` is false. -/
theorem c4_modelchange_not_removed :
    listenerRemovedOnCleanup modelViewerSetup modelViewerCleanup "modelchange"
      = false := by decide

/-- C4 (amended): the `viewerready` listener is removed via the
`AbortController` on unmount, the camera view-matrix observer is removed on
cleanup, and `scene.onPointerDown` is reset to `undefined` on cleanup; but the
`modelchange` listener is registered without the abort signal and is not
removed by the cleanup, so not every registration is paired with a removal. -/
theorem c4_listener_lifecycle_amended :
    listenerRemovedOnCleanup modelViewerSetup modelViewerCleanup "viewerready"
      = true ∧
    listenerRemovedOnCleanup modelViewerSetup modelViewerCleanup "modelchange"
      = false ∧
    allReleased cameraObserverSetup cameraObserverCleanup = true ∧
    allReleased pointerHandlerSetup pointerHandlerCleanup = true ∧
    allReleased modelViewerSetup modelViewerCleanup = false := by decide

/-- C5: the repository supplies the 3D viewer component its model URL as the
`src` attribute (with `LiveObjectViewer` passing the skull-splat URL) together
with the hard-coded environment URL, and the `viewerready` handler invokes
`onReadyObservable` with the event's scene and that scene's active camera. -/
theorem c5_viewer_props_and_ready :
    (∀ modelFileName : String,
      viewerAttributes modelFileName =
        { src := some modelFileName, env := some modelViewerEnvUrl }) ∧
    (viewerAttributes liveObjectViewerModelUrl).src =
      some liveObjectViewerModelUrl ∧
    (∀ event : ViewerReadyEvent,
      viewerReadyHandlerArgs event = (event.scene, event.scene.activeCamera)) :=
  ⟨fun _ => rfl, rfl, fun _ => rfl⟩

/-- C6: local state updates are pushed to the collaboration SDK.  In every
reachable component state with a selected material, `onChangeColor` writes the
(material name, hex color) entry to the shared map; and a local (not
remote-applied) camera view-matrix change pushes the camera's current
`{x, y, z}` position via `updateUserCameraState`. -/
theorem c6_pushes_local_updates :
    (∀ (st : ViewerState) (name v : String),
      ViewerReachable st → st.selected = some name →
      Effect.setEntry name v ∈ onChangeColor st.selected st.scene v) ∧
    (∀ c : Camera,
      onCameraViewMatrixChanged false (some c) =
        [Effect.updateUserCameraState c.position.x c.position.y c.position.z,
         Effect.beginSuspension]) := by
  constructor
  · intro st name v hreach hsel
    have hscene : st.scene.isSome := by
      exact viewer_selected_implies_scene hreach (by rw [hsel]; rfl)
    obtain ⟨s, hs⟩ := Option.isSome_iff_exists.mp hscene
    rw [hsel, hs]
    simp [onChangeColor]
  · intro c; rfl

/-- C6 witness: after the viewer becomes ready and the user clicks a mesh
carrying material `"m"`, picking the color `"#aabbcc"` writes the shared-map
entry `("m", "#aabbcc")`. -/
theorem c6_witness :
    Effect.setEntry "m" "#aabbcc" ∈
      onChangeColor (some "m")
        (some { materials := [{ name := "m", isPBR := true }],
                activeCamera := none }) "#aabbcc" := by
  have hreach : ViewerReachable
      { scene := some { materials := [{ name := "m", isPBR := true }],
                        activeCamera := none },
        selected := some "m", camera := none } :=
    ⟨[ViewerEvent.ready
        { materials := [{ name := "m", isPBR := true }], activeCamera := none }
        none,
      ViewerEvent.pointerDown
        (some { hit := true,
                pickedMesh := some
                  { material := some { name := "m", isPBR := true } } })],
     rfl⟩
  exact c6_pushes_local_updates.1
    { scene := some { materials := [{ name := "m", isPBR := true }],
                      activeCamera := none },
      selected := some "m", camera := none } "m" "#aabbcc" hreach rfl

/-- C7 counterexample: the synchronized objects of this repository are not
exactly the colors map and the follow-mode state — the rendered
`LiveCanvasOverlay` additionally synchronizes pen/highlighter/cursor ink
(part_000 lines 103 and 446-452). -/
theorem c7_not_only_two_synced_objects :
    liveObjectViewerSyncedObjects ≠ specSyncedObjects := by decide

/-- C7 (amended): the synchronized data consists of the material-name → hex
color map and the per-user follow state whose custom data is an optional
`{x, y, z}` camera position (plus the SDK's follow/suspend mode), together
with the live-canvas ink session of `LiveCanvasOverlay`; nothing else.  The
custom data record carries no field besides `cameraPosition`, and a camera
position no field besides `x`, `y`, `z`. -/
theorem c7_synced_objects_amended :
    specSyncedObjects ⊆ liveObjectViewerSyncedObjects ∧
    liveObjectViewerSyncedObjects =
      specSyncedObjects ++ [SyncedObject.liveCanvasInk] ∧
    (∀ d : ICustomFollowData, d = { cameraPosition := d.cameraPosition }) ∧
    (∀ p : Vec3, p = { x := p.x, y := p.y, z := p.z }) :=
  ⟨by decide, rfl, fun _ => rfl, fun _ => rfl⟩

/-- C8: no echo loop from following.  While the `isApplyingRemoteCameraUpdate`
flag is set, the view-matrix-changed callback performs no effect (in
particular it neither sends the camera position nor begins a suspension); in
the snap callback every camera mutation happens while the flag is raised; and
the view-matrix-changed callback produces an effect only when the flag is
down. -/
theorem c8_no_echo_loop :
    (∀ cam : Option Camera, onCameraViewMatrixChanged true cam = []) ∧
    (∀ (pos : Vec3) (init : Bool) (i : Nat)
        (h : i < (snapCallbackTrace pos).length),
      ((snapCallbackTrace pos).get ⟨i, h⟩).isCameraOp = true →
      flagAt init (snapCallbackTrace pos) i = true) ∧
    (∀ (flag : Bool) (cam : Option Camera),
      onCameraViewMatrixChanged flag cam ≠ [] → flag = false) := by
  refine ⟨fun cam => rfl, ?_, ?_⟩
  · intro pos init i h hop
    simp only [snapCallbackTrace, List.length_cons, List.length_nil] at h
    interval_cases i <;>
      simp_all [snapCallbackTrace, flagAt, Effect.isCameraOp]
  · intro flag cam hne
    cases flag with
    | false => rfl
    | true => exact absurd rfl hne

/-- C8 witness: in the snap callback the `camera.setPosition` step (index 1)
runs with the flag raised, even starting from a lowered flag. -/
theorem c8_witness :
    flagAt false (snapCallbackTrace { x := 1, y := 2, z := 3 }) 1 = true :=
  c8_no_echo_loop.2.1 { x := 1, y := 2, z := 3 } false 1 (by decide) rfl

/-- C9: `handlePointerDown` leaves the selected material name unchanged (no
state update) when the pick hits a mesh whose material is null; assuming the
engine's invariant that a hit pick carries a mesh, it issues the clearing
update `setSelected none` only when the pick misses entirely and a material is
currently selected; and a miss with no current selection performs no state
update. -/
theorem c9_pointer_frame_conditions :
    (∀ (s : Scene) (pr : PickingInfo) (mesh : Mesh) (sel : Option String),
      pr.hit = true → pr.pickedMesh = some mesh → mesh.material = none →
      handlePointerDown (some s) (some pr) sel = []) ∧
    (∀ (scene : Option Scene) (pr : Option PickingInfo) (sel : Option String),
      (∀ p, pr = some p → p.hit = true → p.pickedMesh.isSome) →
      Effect.setSelected none ∈ handlePointerDown scene pr sel →
      (pr = none ∨ ∃ p, pr = some p ∧ p.hit = false) ∧ sel.isSome) ∧
    (∀ (scene : Option Scene) (pr : Option PickingInfo),
      (pr = none ∨ ∃ p, pr = some p ∧ p.hit = false) →
      handlePointerDown scene pr none = []) := by
  refine ⟨?_, ?_, ?_⟩
  · intro s pr mesh sel hhit hmesh hmat
    simp [handlePointerDown, hhit, hmesh, hmat]
  · intro scene pr sel hwf hmem
    cases scene with
    | none => simp [handlePointerDown] at hmem
    | some s =>
      cases pr with
      | none =>
        cases sel with
        | none => simp [handlePointerDown] at hmem
        | some n => exact ⟨Or.inl rfl, rfl⟩
      | some p =>
        cases hhit : p.hit with
        | false =>
          cases sel with
          | none => simp [handlePointerDown, hhit] at hmem
          | some n => exact ⟨Or.inr ⟨p, rfl, hhit⟩, rfl⟩
        | true =>
          obtain ⟨mesh, hmesh⟩ :=
            Option.isSome_iff_exists.mp (hwf p rfl hhit)
          cases hmat : mesh.material with
          | none => simp [handlePointerDown, hhit, hmesh, hmat] at hmem
          | some mat => simp [handlePointerDown, hhit, hmesh, hmat] at hmem
  · intro scene pr hmiss
    cases scene with
    | none => rfl
    | some s =>
      rcases hmiss with rfl | ⟨p, rfl, hhit⟩
      · rfl
      · simp [handlePointerDown, hhit]

/-- C9 witness: a hit on a mesh with a null material performs no state update
(the current selection `"m"` stays). -/
theorem c9_witness :
    handlePointerDown (some { materials := [], activeCamera := none })
      (some { hit := true, pickedMesh := some { material := none } })
      (some "m") = [] :=
  c9_pointer_frame_conditions.1 { materials := [], activeCamera := none }
    { hit := true, pickedMesh := some { material := none } }
    { material := none } (some "m") rfl rfl rfl

/-- C10: the top header bar renders exactly one action button for every
non-null `remoteCameraState`, determined by its type: "Spotlight me" for
`local` or `activeFollowers`, "Stop spotlight" for `activePresenter`, "Stop
following" for `followUser` or `suspendFollowUser`, and "Take control" for
`followPresenter` or `suspendFollowPresenter`; with no state, no bar and no
button. -/
theorem c10_header_buttons :
    (∀ st : RemoteCameraState, (topHeaderBarButtons (some st)).length = 1) ∧
    topHeaderBarButtons none = [] ∧
    (∀ st : RemoteCameraState,
      topHeaderBarButtons (some st) =
        match st.type with
        | FollowModeType.localType => [HeaderButton.spotlightMe]
        | FollowModeType.activeFollowers => [HeaderButton.spotlightMe]
        | FollowModeType.activePresenter => [HeaderButton.stopSpotlight]
        | FollowModeType.followUser => [HeaderButton.stopFollowing]
        | FollowModeType.suspendFollowUser => [HeaderButton.stopFollowing]
        | FollowModeType.followPresenter => [HeaderButton.takeControl]
        | FollowModeType.suspendFollowPresenter => [HeaderButton.takeControl]) := by
  have hlen : ∀ t : FollowModeType, (headerBarButtons t).length = 1 := by decide
  have hval : ∀ t : FollowModeType,
      headerBarButtons t =
        match t with
        | FollowModeType.localType => [HeaderButton.spotlightMe]
        | FollowModeType.activeFollowers => [HeaderButton.spotlightMe]
        | FollowModeType.activePresenter => [HeaderButton.stopSpotlight]
        | FollowModeType.followUser => [HeaderButton.stopFollowing]
        | FollowModeType.suspendFollowUser => [HeaderButton.stopFollowing]
        | FollowModeType.followPresenter => [HeaderButton.takeControl]
        | FollowModeType.suspendFollowPresenter => [HeaderButton.takeControl] := by
    decide
  exact ⟨fun st => hlen st.type, rfl, fun st => hval st.type⟩

end LiveShare3D
